import Mathlib

set_option maxRecDepth 100000

set_option allowUnsafeReducibility true

attribute [local semireducible] Rat.add Rat.mul Rat.inv Rat.sub Rat.div

instance exceptDecEq {ε α : Type} [DecidableEq ε] [DecidableEq α] :
    DecidableEq (Except ε α) := fun a b =>
  match a, b with
  | .ok x, .ok y => decidable_of_iff (x = y) (by simp)
  | .error x, .error y => decidable_of_iff (x = y) (by simp)
  | .ok _, .error _ => isFalse (by simp)
  | .error _, .ok _ => isFalse (by simp)

/-!
Verification development for the uc3m_money account-management system
(`transfer_request.py`, `account_manager.py`).  Python functions are
shallowly embedded as executable Lean definitions; machine words used by
the MD5 digest are `Nat` reduced modulo `2 ^ 32`.
-/

/-! ## Basic helpers -/

/-- ASCII decimal digit test, the semantics of the regex class `[0-9]`
(codes 48-57). -/
def isDigitCh (c : Char) : Bool := 48 ≤ c.toNat && c.toNat ≤ 57

/-- Numeric value of an ASCII digit character. -/
def digitVal (c : Char) : Nat := c.toNat - 48

/-- Value of a digit string, the semantics of Python `int` on digit strings. -/
def natOfDigits (l : List Char) : Nat := l.foldl (fun a c => 10 * a + digitVal c) 0

/-! ## MD5 (RFC 1321), used by `hashlib.md5(...).hexdigest()` in the source.
Words are `Nat` kept below `2 ^ 32`. -/

def w32 : Nat := 4294967296

def add32 (a b : Nat) : Nat := (a + b) % w32

def not32 (a : Nat) : Nat := 4294967295 - a

def rotl32 (x n : Nat) : Nat := ((x <<< n) + (x >>> (32 - n))) % w32

def md5F (b c d : Nat) : Nat := Nat.lor (Nat.land b c) (Nat.land (not32 b) d)

def md5G (b c d : Nat) : Nat := Nat.lor (Nat.land d b) (Nat.land (not32 d) c)

def md5H (b c d : Nat) : Nat := Nat.xor b (Nat.xor c d)

def md5I (b c d : Nat) : Nat := Nat.xor c (Nat.lor b (not32 d))

/-- The 64 MD5 sine constants `floor(2^32 * abs(sin(i+1)))`. -/
def md5K : List Nat :=
  [3614090360, 3905402710, 606105819, 3250441966, 4118548399, 1200080426,
   2821735955, 4249261313, 1770035416, 2336552879, 4294925233, 2304563134,
   1804603682, 4254626195, 2792965006, 1236535329, 4129170786, 3225465664,
   643717713, 3921069994, 3593408605, 38016083, 3634488961, 3889429448,
   568446438, 3275163606, 4107603335, 1163531501, 2850285829, 4243563512,
   1735328473, 2368359562, 4294588738, 2272392833, 1839030562, 4259657740,
   2763975236, 1272893353, 4139469664, 3200236656, 681279174, 3936430074,
   3572445317, 76029189, 3654602809, 3873151461, 530742520, 3299628645,
   4096336452, 1126891415, 2878612391, 4237533241, 1700485571, 2399980690,
   4293915773, 2240044497, 1873313359, 4264355552, 2734768916, 1309151649,
   4149444226, 3174756917, 718787259, 3951481745]

/-- The per-round left-rotation amounts. -/
def md5S : List Nat :=
  [7, 12, 17, 22, 7, 12, 17, 22, 7, 12, 17, 22, 7, 12, 17, 22,
   5, 9, 14, 20, 5, 9, 14, 20, 5, 9, 14, 20, 5, 9, 14, 20,
   4, 11, 16, 23, 4, 11, 16, 23, 4, 11, 16, 23, 4, 11, 16, 23,
   6, 10, 15, 21, 6, 10, 15, 21, 6, 10, 15, 21, 6, 10, 15, 21]

def md5g (i : Nat) : Nat :=
  if i < 16 then i
  else if i < 32 then (5 * i + 1) % 16
  else if i < 48 then (3 * i + 5) % 16
  else (7 * i) % 16

def md5f (i b c d : Nat) : Nat :=
  if i < 16 then md5F b c d
  else if i < 32 then md5G b c d
  else if i < 48 then md5H b c d
  else md5I b c d

def md5step (m : List Nat) (st : Nat × Nat × Nat × Nat) (i : Nat) :
    Nat × Nat × Nat × Nat :=
  let a := st.1
  let b := st.2.1
  let c := st.2.2.1
  let d := st.2.2.2
  let f := add32 (add32 (md5f i b c d) a) (add32 (md5K.getD i 0) (m.getD (md5g i) 0))
  (d, add32 b (rotl32 f (md5S.getD i 0)), b, c)

def md5chunk (st : Nat × Nat × Nat × Nat) (m : List Nat) : Nat × Nat × Nat × Nat :=
  let r := (List.range 64).foldl (md5step m) st
  (add32 st.1 r.1, add32 st.2.1 r.2.1, add32 st.2.2.1 r.2.2.1, add32 st.2.2.2 r.2.2.2)

/-- Little-endian 32-bit words from a byte list. -/
def wordsOfBytes : List Nat → List Nat
  | b0 :: b1 :: b2 :: b3 :: rest =>
      (b0 + 256 * b1 + 65536 * b2 + 16777216 * b3) :: wordsOfBytes rest
  | _ => []

/-- `len` little-endian bytes of `n`. -/
def leBytes : Nat → Nat → List Nat
  | 0, _ => []
  | k + 1, n => (n % 256) :: leBytes k (n / 256)

/-- Split a byte list into 64-byte chunks (structural recursion on a fuel
bound, so that the definition reduces in the kernel). -/
def chunksAux : Nat → List Nat → List (List Nat)
  | 0, _ => []
  | _, [] => []
  | fuel + 1, l => l.take 64 :: chunksAux fuel (l.drop 64)

def chunks64 (l : List Nat) : List (List Nat) := chunksAux l.length l

/-- MD5 padding: `0x80`, zeros to 56 mod 64, then the 64-bit bit length. -/
def md5pad (msg : List Nat) : List Nat :=
  msg ++ [128] ++ List.replicate ((120 - (msg.length + 1) % 64) % 64) 0 ++
    leBytes 8 (8 * msg.length % 2 ^ 64)

def hexDigitCh (n : Nat) : Char :=
  if n < 10 then Char.ofNat (48 + n) else Char.ofNat (87 + n)

def byteHex (b : Nat) : List Char := [hexDigitCh (b / 16), hexDigitCh (b % 16)]

def md5hexOfBytes (msg : List Nat) : String :=
  let r := (chunks64 (md5pad msg)).foldl (fun st ch => md5chunk st (wordsOfBytes ch))
    (1732584193, 4023233417, 2562383102, 271733878)
  String.mk ((([r.1, r.2.1, r.2.2.1, r.2.2.2].map (leBytes 4)).flatten.map byteHex).flatten)

/-- Byte sequence of an ASCII string, the semantics of `str.encode()` on the
ASCII strings produced by this program. -/
def strBytes (s : String) : List Nat := s.data.map Char.toNat

/-- `hashlib.md5(s.encode()).hexdigest()` for ASCII `s`. -/
def md5hex (s : String) : String := md5hexOfBytes (strBytes s)

/-! ## Errors

`AccountManagementException` carries only a message string; one constructor
per distinct message raised by the source, plus the non-domain outcomes of the
Python runtime that the code can produce. -/

inductive AmErr
  | invalidIbanFormat      -- "Invalid IBAN format"
  | invalidIbanControl     -- "Invalid IBAN control digit"
  | invalidConceptFormat   -- "Invalid concept format"
  | invalidDateFormat      -- "Invalid date format"
  | dateMustBeTodayOrLater -- "Transfer date must be today or later."
  | invalidTransferAmount  -- "Invalid transfer amount"
  | invalidTransferType    -- "Invalid transfer type"
  | duplicatedTransfer     -- "Duplicated transfer in transfer list"
  | jsonDecodeError        -- "JSON Decode Error - Wrong JSON Format"
  | wrongFilePath          -- "Wrong file  or file path"
  | fileInputNotFound      -- "Error: file input not found"
  | invalidKeyInJson       -- "Error - Invalid Key in JSON"
  | invalidDepositAmount   -- "Error - Invalid deposit amount"
  | depositMustBePositive  -- "Error - Deposit must be greater than 0"
  | ibanNotFound           -- "IBAN not found"
  deriving DecidableEq, Repr

/-- Result of reading a JSON store file: absent, malformed, or parsed. -/
inductive ReadFile (α : Type)
  | missing
  | corrupt
  | good (val : α)
  deriving DecidableEq, Repr

/-! ## IBAN validation (`TransferRequest.validate_iban`;
`AccountManager.validate_iban` in the G8X file is character-identical). -/

/-- `re.fullmatch("^ES[0-9]{22}", s)`: the whole string is `ES` followed by
exactly 22 decimal digits (`fullmatch` anchors both ends). -/
def ibanFormatOk (s : String) : Bool :=
  match s.data with
  | c1 :: c2 :: rest =>
      decide (c1 = 'E') && decide (c2 = 'S') && (rest.length == 22) && rest.all isDigitCh
  | _ => false

/-- Python `str.replace(c, r)` for a one-character pattern `c`. -/
def replaceChar (s : List Char) (c : Char) (r : List Char) : List Char :=
  (s.map (fun ch => if ch = c then r else [ch])).flatten

/-- The 26 sequential `str.replace` calls of the source, in source order
(`'A'` -> `"10"`, ..., `'Z'` -> `"35"`). -/
def letterTable : List (Char × List Char) :=
  [('A', ['1','0']), ('B', ['1','1']), ('C', ['1','2']), ('D', ['1','3']),
   ('E', ['1','4']), ('F', ['1','5']), ('G', ['1','6']), ('H', ['1','7']),
   ('I', ['1','8']), ('J', ['1','9']), ('K', ['2','0']), ('L', ['2','1']),
   ('M', ['2','2']), ('N', ['2','3']), ('O', ['2','4']), ('P', ['2','5']),
   ('Q', ['2','6']), ('R', ['2','7']), ('S', ['2','8']), ('T', ['2','9']),
   ('U', ['3','0']), ('V', ['3','1']), ('W', ['3','2']), ('X', ['3','3']),
   ('Y', ['3','4']), ('Z', ['3','5'])]

/-- The chained letter-to-digit substitution of the source. -/
def ibanLetterSubst (s : List Char) : List Char :=
  letterTable.foldl (fun acc p => replaceChar acc p.1 p.2) s

/-- `TransferRequest.validate_iban` (and the identical
`AccountManager.validate_iban` of the G8X file): checks the format regex,
zeroes the check digits, rotates the first four characters to the end,
substitutes letters, and compares the declared check code with
`98 - (n % 97)`.  On success it returns the substituted numeric string. -/
def validate_iban (iban : String) : Except AmErr String :=
  if ibanFormatOk iban then
    let original_code := natOfDigits ((iban.data.drop 2).take 2)
    let replaced := iban.data.take 2 ++ ['0','0'] ++ iban.data.drop 4
    let rotated := replaced.drop 4 ++ replaced.take 4
    let numeric := ibanLetterSubst rotated
    let int_iban := natOfDigits numeric
    let control_digit := 98 - int_iban % 97
    if original_code = control_digit then .ok (String.mk numeric)
    else .error .invalidIbanControl
  else .error .invalidIbanFormat

/-- The integer `N` of the specification sentence: characters at offsets 2-3
replaced by `00`, the first four characters moved to the end, `E` and `S`
substituted by `14` and `28`; stated arithmetically. -/
def specIbanN (s : String) : Nat :=
  natOfDigits (s.data.drop 4) * 1000000 + 142800

/-- The check code declared at offsets 2-3, read as an integer. -/
def specCheckCode (s : String) : Nat :=
  natOfDigits ((s.data.drop 2).take 2)

/-! ## Transfer type validation -/

/-- `TransferRequest.validate_transfer_type`: the source runs
`re.fullmatch("(ORDINARY|INMEDIATE|URGENT)", t)` through `check_regular`;
a full match of an alternation of literals holds exactly when the whole
string equals one of the literals. -/
def validate_transfer_type (transfer_type : String) : Except AmErr Unit :=
  if transfer_type = "ORDINARY" ∨ transfer_type = "INMEDIATE" ∨
      transfer_type = "URGENT" then .ok ()
  else .error .invalidTransferType

/-- The corresponding check of `AccountManager.transfer_request` in the G8X
file: `re.fullmatch("(ORDINARY|IMMEDIATE|URGENT)", t)` via `check_regex`. -/
def g8xTransferTypeOk (transfer_type : String) : Bool :=
  decide (transfer_type = "ORDINARY") || decide (transfer_type = "IMMEDIATE") ||
    decide (transfer_type = "URGENT")

/-! ## Concept validation -/

/-- The regex class `[a-zA-Z]` (ASCII letters only in Python `re`). -/
def isAlphaCh (c : Char) : Bool :=
  (65 ≤ c.toNat && c.toNat ≤ 90) || (97 ≤ c.toNat && c.toNat ≤ 122)

/-- The regex class `\s`: space, tab, newline, carriage return, vertical tab,
form feed. -/
def isWsCh (c : Char) : Bool :=
  c.toNat = 32 || c.toNat = 9 || c.toNat = 10 || c.toNat = 13 ||
    c.toNat = 11 || c.toNat = 12

/-- `re.fullmatch("^(?=^.{10,30}$)([a-zA-Z]+(\s[a-zA-Z]+)+)$", s)`:
total length 10-30 with no newline (the lookahead `.` cannot cross `\n`),
alphabetic words separated by single whitespace characters, at least two
words; stated character-wise. -/
def conceptOk (s : String) : Bool :=
  let l := s.data
  (10 ≤ l.length && l.length ≤ 30) &&
  l.all (fun c => !decide (c = '\n')) &&
  l.all (fun c => isAlphaCh c || isWsCh c) &&
  (match l.head? with | some c => isAlphaCh c | none => false) &&
  (match l.getLast? with | some c => isAlphaCh c | none => false) &&
  (l.zip l.tail).all (fun p => !(isWsCh p.1 && isWsCh p.2)) &&
  l.any isWsCh

/-- `TransferRequest.validate_concept`. -/
def validate_concept (concept : String) : Except AmErr Unit :=
  if conceptOk concept then .ok () else .error .invalidConceptFormat

/-! ## Date validation -/

/-- A `datetime.date`: comparison is lexicographic on (year, month, day). -/
structure PyDate where
  year : Nat
  month : Nat
  day : Nat
  deriving DecidableEq, Repr

/-- Python `date.__lt__`. -/
def pyDateLt (a b : PyDate) : Bool :=
  decide (a.year < b.year) ||
  (decide (a.year = b.year) && decide (a.month < b.month)) ||
  (decide (a.year = b.year) && decide (a.month = b.month) && decide (a.day < b.day))

/-- Gregorian leap year, as implemented by `datetime`. -/
def isLeapYear (y : Nat) : Bool :=
  decide (y % 4 = 0) && (!decide (y % 100 = 0) || decide (y % 400 = 0))

def daysInMonth (y m : Nat) : Nat :=
  if m = 2 then (if isLeapYear y then 29 else 28)
  else if m = 4 ∨ m = 6 ∨ m = 9 ∨ m = 11 then 30
  else 31

/-- `re.fullmatch("^(([0-2]\d|3[0-1])\/(0\d|1[0-2])\/\d\d\d\d)$", s)`,
character-wise: codes 47 ('/'), 48-57 ('0'-'9'), 50 ('2'), 51 ('3'),
49 ('1'). -/
def dateRegexOk (s : String) : Bool :=
  match s.data with
  | [a, b, s1, c, d, s2, e, f, g, h] =>
      decide (s1 = '/') && decide (s2 = '/') &&
      ((48 ≤ a.toNat && a.toNat ≤ 50 && isDigitCh b) ||
        (a.toNat = 51 && (b.toNat = 48 || b.toNat = 49))) &&
      ((c.toNat = 48 && isDigitCh d) ||
        (c.toNat = 49 && (48 ≤ d.toNat && d.toNat ≤ 50))) &&
      isDigitCh e && isDigitCh f && isDigitCh g && isDigitCh h
  | _ => false

/-- `datetime.strptime(s, "%d/%m/%Y").date()` on a ten-character
`DD/MM/YYYY` candidate: all positions must be digits around the slashes, the
month must be 1-12, the day 1 to the length of that month, the year at least
`MINYEAR = 1`; otherwise `ValueError`. -/
def strptimeDMY (s : String) : Option PyDate :=
  match s.data with
  | [a, b, s1, c, d, s2, e, f, g, h] =>
      if decide (s1 = '/') && decide (s2 = '/') &&
          [a, b, c, d, e, f, g, h].all isDigitCh then
        let day := 10 * digitVal a + digitVal b
        let month := 10 * digitVal c + digitVal d
        let year := natOfDigits [e, f, g, h]
        if 1 ≤ month && month ≤ 12 && 1 ≤ day && day ≤ daysInMonth year month &&
            1 ≤ year then
          some ⟨year, month, day⟩
        else none
      else none
  | _ => none

/-- `TransferRequest.validate_transfer_date` (the G8X file's
`validate_transfer_date` is character-identical), with the current UTC date
passed explicitly.  Returns the input string on success. -/
def validate_transfer_date (today : PyDate) (transfer_date : String) :
    Except AmErr String :=
  if dateRegexOk transfer_date then
    match strptimeDMY transfer_date with
    | none => .error .invalidDateFormat
    | some my_date =>
        if pyDateLt my_date today then .error .dateMustBeTodayOrLater
        else if my_date.year < 2025 ∨ my_date.year > 2050 then
          .error .invalidDateFormat
        else .ok transfer_date
  else .error .invalidDateFormat

/-- The specification's acceptance condition for dates, stated directly:
the string has the shape `DD/MM/YYYY` (two digits, slash, two digits, slash,
four digits), denotes a calendar date, that date is on or after the current
UTC date, and its year lies in [2025, 2050]. -/
def specDateOk (today : PyDate) (s : String) : Bool :=
  match s.data with
  | [a, b, s1, c, d, s2, e, f, g, h] =>
      decide (s1 = '/') && decide (s2 = '/') &&
      [a, b, c, d, e, f, g, h].all isDigitCh &&
      (let day := 10 * digitVal a + digitVal b
       let month := 10 * digitVal c + digitVal d
       let year := natOfDigits [e, f, g, h]
       1 ≤ month && month ≤ 12 && 1 ≤ day && day ≤ daysInMonth year month &&
       !pyDateLt ⟨year, month, day⟩ today &&
       2025 ≤ year && year ≤ 2050)
  | _ => false

/-! ## Amount validation -/

/-- `TransferRequest.validate_amount` on a parsed numeric value, with the
Python float modelled exactly by the rational it denotes: `str(float)`
prints the shortest round-tripping decimal, so for the short decimal amounts
in scope the count of printed fractional digits is at most 2 exactly when
`amount * 100` is an integer; the check order (decimals, then range) follows
the source. -/
def validate_amount (amount : ℚ) : Except AmErr Unit :=
  if (amount * 100).den ≠ 1 then .error .invalidTransferAmount
  else if amount < 10 ∨ amount > 10000 then .error .invalidTransferAmount
  else .ok ()

/-- Python `float(s)` on plain decimal literals (optional sign, digits,
optional fraction, surrounding spaces); anything else raises `ValueError`,
modelled as `none`.  Exponent and special forms are outside the inputs this
program produces. -/
def parsePyFloat (s : String) : Option ℚ :=
  let l := (s.data.dropWhile (fun c => c.toNat = 32)).reverse.dropWhile
    (fun c => c.toNat = 32) |>.reverse
  let core := fun (l : List Char) (neg : Bool) =>
    let ip := l.takeWhile isDigitCh
    let rest := l.drop ip.length
    let build := fun (fp : List Char) =>
      if ip.length + fp.length = 0 then none
      else
        let n : Int := (natOfDigits ip * 10 ^ fp.length + natOfDigits fp : Nat)
        some (mkRat (if neg then -n else n) (10 ^ fp.length))
    match rest with
    | [] => if ip.isEmpty then none else build []
    | '.' :: fp => if fp.all isDigitCh then build fp else none
    | _ => none
  match l with
  | '-' :: t => core t true
  | '+' :: t => core t false
  | t => core t false

/-- `validate_amount` applied to a string amount, through `float(...)`. -/
def validate_amount_str (s : String) : Except AmErr Unit :=
  match parsePyFloat s with
  | none => .error .invalidTransferAmount
  | some q => validate_amount q

/-! ## The TransferRequest entity -/

/-- The instance attributes set by `TransferRequest.__init__`, in assignment
order; `transfer_amount` and `time_stamp` are Python floats, modelled by the
rationals they denote. -/
structure TRState where
  transfer_store_file : String
  from_iban : String
  to_iban : String
  transfer_type : String
  concept : String
  transfer_date : String
  transfer_amount : ℚ
  time_stamp : ℚ
  deriving DecidableEq, Repr

/-- Digit string of a natural number, the semantics of Python `str` on a
non-negative integer part. -/
def natDigits (n : Nat) : String := toString n

/-- Fraction digits of `num / den` (with `num < den`), by repeated
multiplication by 10 until the remainder is zero; `fuel` bounds the length
(floats always terminate well inside 60 digits). -/
def fracDigits : Nat → Nat → Nat → List Char
  | 0, _, _ => []
  | _, 0, _ => []
  | fuel + 1, num, den =>
      let num10 := num * 10
      Char.ofNat (48 + num10 / den) :: fracDigits fuel (num10 % den) den

/-- `repr(f)` for a Python float holding the exact value `q`: used both by
`str()` and by `json.dumps`.  For the terminating short decimals this program
handles, the shortest round-tripping form is the exact decimal expansion with
trailing zeros removed, and an integral value prints as `X.0`. -/
def pyFloatRepr (q : ℚ) : String :=
  let sign := if q < 0 then "-" else ""
  let a := |q|
  let ip := a.num.toNat / a.den
  let frac := fracDigits 60 (a.num.toNat % a.den) a.den
  sign ++ natDigits ip ++ "." ++ (if frac.isEmpty then "0" else String.mk frac)

/-- `str(self)` of `TransferRequest`:
`"Transfer:" + json.dumps(self.__dict__)` with the name-mangled attributes in
assignment order and `json.dumps`'s default separators. -/
def transferStr (st : TRState) : String :=
  "Transfer:\x7b\"_TransferRequest__transfer_store_file\": \"" ++
    st.transfer_store_file ++
  "\", \"_TransferRequest__from_iban\": \"" ++ st.from_iban ++
  "\", \"_TransferRequest__to_iban\": \"" ++ st.to_iban ++
  "\", \"_TransferRequest__transfer_type\": \"" ++ st.transfer_type ++
  "\", \"_TransferRequest__concept\": \"" ++ st.concept ++
  "\", \"_TransferRequest__transfer_date\": \"" ++ st.transfer_date ++
  "\", \"_TransferRequest__transfer_amount\": " ++
    pyFloatRepr st.transfer_amount ++
  ", \"_TransferRequest__time_stamp\": " ++ pyFloatRepr st.time_stamp ++
  "\x7d"

/-- The `transfer_code` property: `hashlib.md5(str(self).encode()).hexdigest()`. -/
def transfer_code (st : TRState) : String := md5hex (transferStr st)

/-- One record of the transfers store, as produced by
`TransferRequest.to_json`. -/
structure TransferRecord where
  from_iban : String
  to_iban : String
  transfer_type : String
  transfer_amount : ℚ
  transfer_concept : String
  transfer_date : String
  time_stamp : ℚ
  transfer_code : String
  deriving DecidableEq, Repr

/-- `TransferRequest.to_json`. -/
def to_json (st : TRState) : TransferRecord :=
  ⟨st.from_iban, st.to_iban, st.transfer_type, st.transfer_amount, st.concept,
   st.transfer_date, st.time_stamp, transfer_code st⟩

/-- `TransferRequest.is_duplicate_transfer`, as a Boolean: the source raises
exactly when all six content fields coincide. -/
def is_duplicate_transfer (st : TRState) (t : TransferRecord) : Bool :=
  decide (t.from_iban = st.from_iban) && decide (t.to_iban = st.to_iban) &&
  decide (t.transfer_date = st.transfer_date) &&
  decide (t.transfer_amount = st.transfer_amount) &&
  decide (t.transfer_concept = st.concept) &&
  decide (t.transfer_type = st.transfer_type)

/-- `TransferRequest.store_transfer_request`: a missing store file reads as
the empty list, a malformed one is a fatal decode error; the stored list is
scanned for a duplicate (raising if one is found) and otherwise rewritten
with the new record appended. -/
def store_transfer_request (st : TRState) (file : ReadFile (List TransferRecord)) :
    Except AmErr (List TransferRecord) :=
  match file with
  | .corrupt => .error .jsonDecodeError
  | .missing =>
      if [].any (is_duplicate_transfer st) then .error .duplicatedTransfer
      else .ok ([] ++ [to_json st])
  | .good t_l =>
      if t_l.any (is_duplicate_transfer st) then .error .duplicatedTransfer
      else .ok (t_l ++ [to_json st])

/-- `TransferRequest.__init__`: assigns the attributes, then runs the
validators in source order and finally `store_transfer_request`.  The clock
inputs (`today` for date validation, `time_stamp` for the attribute) and the
store-file contents are explicit.  The result pairs the constructed object
(or the raised error) with the final state of the transfers store. -/
def TransferRequest.construct (from_iban transfer_type to_iban transfer_concept
    transfer_date : String) (transfer_amount : ℚ) (transfer_store_file : String)
    (today : PyDate) (time_stamp : ℚ) (file : ReadFile (List TransferRecord)) :
    Except AmErr TRState × ReadFile (List TransferRecord) :=
  let st : TRState := ⟨transfer_store_file, from_iban, to_iban, transfer_type,
    transfer_concept, transfer_date, transfer_amount, time_stamp⟩
  match validate_iban from_iban with
  | .error e => (.error e, file)
  | .ok _ =>
  match validate_iban to_iban with
  | .error e => (.error e, file)
  | .ok _ =>
  match validate_concept transfer_concept with
  | .error e => (.error e, file)
  | .ok _ =>
  match validate_transfer_type transfer_type with
  | .error e => (.error e, file)
  | .ok _ =>
  match validate_transfer_date today transfer_date with
  | .error e => (.error e, file)
  | .ok _ =>
  match validate_amount transfer_amount with
  | .error e => (.error e, file)
  | .ok _ =>
  match store_transfer_request st file with
  | .error e => (.error e, file)
  | .ok t_l => (.ok st, .good t_l)

/-- Equality of the six content fields used by the duplicate check. -/
def sameTuple (a b : TransferRecord) : Prop :=
  a.from_iban = b.from_iban ∧ a.to_iban = b.to_iban ∧
  a.transfer_date = b.transfer_date ∧ a.transfer_amount = b.transfer_amount ∧
  a.transfer_concept = b.transfer_concept ∧ a.transfer_type = b.transfer_type

instance : DecidablePred fun p : TransferRecord × TransferRecord =>
    sameTuple p.1 p.2 := fun _ => by unfold sameTuple; infer_instance

/-- The §3 invariant: no two stored records share the six content fields. -/
def noDups (l : List TransferRecord) : Prop :=
  l.Pairwise (fun a b => ¬ sameTuple a b)

/-- Transfers-store states reachable through the API, starting from an empty
(or absent) store. -/
inductive ReachableStore : List TransferRecord → Prop
  | nil : ReachableStore []
  | step (st : TRState) (l l' : List TransferRecord) : ReachableStore l →
      store_transfer_request st (.good l) = .ok l' → ReachableStore l'

/-! ## The account managers -/

/-- Outcome of a manager call as seen by the caller: a returned value, an
`AccountManagementException`, or an escaped Python runtime error. -/
inductive PyResult
  | ok (ret : String)
  | amErr (e : AmErr)
  | valueError
  | attrError
  deriving DecidableEq, Repr

/-- A record of the transactions store: an `IBAN` field and an `amount`
field (`float(...)` of the stored string, modelled by its exact value). -/
structure TxEntry where
  iban : String
  amount : ℚ
  deriving DecidableEq, Repr

/-- A snapshot appended to the balances store. -/
structure BalanceRecord where
  iban : String
  time : ℚ
  balance : ℚ
  deriving DecidableEq, Repr

/-- The deposit input object: the `IBAN` and `AMOUNT` keys if present. -/
structure DepositInput where
  ibanKey : Option String
  amountKey : Option String
  deriving DecidableEq, Repr

/-- Modelled from the spec: `account_deposit.py` is not under `src/`; §3 of
the spec describes the `AccountDeposit` entity as carrying `to_iban`,
`deposit_amount` and a derived hash-based `deposit_signature` analogous to
the transfer code. -/
structure DepositRecord where
  to_iban : String
  deposit_amount : ℚ
  deposit_signature : String
  deriving DecidableEq, Repr

/-- Modelled from the spec: the hash-based deposit signature ("content-derived
identifier for a deposit record, analogous to transfer code"); its exact hash
input is not in `src/`, and no claim depends on its value. -/
def depositSig (to_iban : String) (deposit_amount : ℚ) : String :=
  md5hex ("AccountDeposit:" ++ to_iban ++ ":" ++ pyFloatRepr deposit_amount)

/-- `AccountManager.calculate_balance` of the G8X file.  `iban` is rebound to
the return value of `validate_iban` (the numeric transform) before the
transaction scan; the sum is over exactly the entries whose `IBAN` field
equals that rebound string, in float arithmetic modelled exactly. -/
def g8x_calculate_balance (iban : String) (tx : ReadFile (List TxEntry))
    (balances : ReadFile (List BalanceRecord)) (now : ℚ) :
    Except AmErr Bool × ReadFile (List BalanceRecord) :=
  match validate_iban iban with
  | .error e => (.error e, balances)
  | .ok ibanNorm =>
  match tx with
  | .missing => (.error .wrongFilePath, balances)
  | .corrupt => (.error .jsonDecodeError, balances)
  | .good t_l =>
      let matched := t_l.filter (fun t => decide (t.iban = ibanNorm))
      if matched.isEmpty then (.error .ibanNotFound, balances)
      else
        let bal := (matched.map TxEntry.amount).sum
        match balances with
        | .corrupt => (.error .jsonDecodeError, balances)
        | .missing => (.ok true, .good [⟨ibanNorm, now, bal⟩])
        | .good b_l => (.ok true, .good (b_l ++ [⟨ibanNorm, now, bal⟩]))

/-- `re.fullmatch("^EUR [0-9]{4}\.[0-9]{2}", s)` (the check written — but
never executed — in both `deposit_into_account` variants): exactly
`EUR ` + four digits + `.` + two digits. -/
def depositAmountFormatOk (s : String) : Bool :=
  match s.data with
  | [e, u, r, sp, d1, d2, d3, d4, dot, p1, p2] =>
      decide (e = 'E') && decide (u = 'U') && decide (r = 'R') &&
      decide (sp = ' ') && [d1, d2, d3, d4].all isDigitCh &&
      decide (dot = '.') && [p1, p2].all isDigitCh
  | _ => false

/-- `AccountManager.deposit_into_account` of the G8X file.  Line 193 binds
`is_valid_deposit_amount` to a tuple `(pattern, deposit_amount)` instead of
running the regex; a non-empty tuple is truthy, so the format branch never
raises and control always reaches `float(deposit_amount[4:])`, which raises
an uncaught `ValueError` on non-numeric tails. -/
def g8x_deposit_into_account (input : ReadFile DepositInput)
    (deposits : ReadFile (List DepositRecord)) :
    PyResult × ReadFile (List DepositRecord) :=
  match input with
  | .missing => (.amErr .fileInputNotFound, deposits)
  | .corrupt => (.amErr .jsonDecodeError, deposits)
  | .good i =>
  match i.ibanKey with
  | none => (.amErr .invalidKeyInJson, deposits)
  | some deposit_iban =>
  match i.amountKey with
  | none => (.amErr .invalidKeyInJson, deposits)
  | some deposit_amount =>
  match validate_iban deposit_iban with
  | .error e => (.amErr e, deposits)
  | .ok ibanNorm =>
  match parsePyFloat (String.mk (deposit_amount.data.drop 4)) with
  | none => (.valueError, deposits)
  | some q =>
      if q = 0 then (.amErr .depositMustBePositive, deposits)
      else
        let d : DepositRecord := ⟨ibanNorm, q, depositSig ibanNorm q⟩
        match deposits with
        | .corrupt => (.amErr .jsonDecodeError, deposits)
        | .missing => (.ok d.deposit_signature, .good [d])
        | .good d_l => (.ok d.deposit_signature, .good (d_l ++ [d]))

/-- `AccountManager.deposit_into_account` of `src/src`.  After the input file
is read and both keys extracted, line 49 evaluates `self.validate_iban(...)`;
the `AccountManager` class of this file defines no `validate_iban` attribute,
so Python raises `AttributeError` there and nothing below it (the amount
checks, the deposit construction, the store write) executes. -/
def src_deposit_into_account (input : ReadFile DepositInput)
    (deposits : ReadFile (List DepositRecord)) :
    PyResult × ReadFile (List DepositRecord) :=
  match input with
  | .missing => (.amErr .fileInputNotFound, deposits)
  | .corrupt => (.amErr .jsonDecodeError, deposits)
  | .good i =>
  match i.ibanKey with
  | none => (.amErr .invalidKeyInJson, deposits)
  | some _ =>
  match i.amountKey with
  | none => (.amErr .invalidKeyInJson, deposits)
  | some _ => (.attrError, deposits)

/-- `AccountManager.calculate_balance` of `src/src`.  Its first statement is
`iban = self.validate_iban(iban)` and the class defines no `validate_iban`
attribute, so every call raises `AttributeError` before any file is read or
written. -/
def src_calculate_balance (iban : String) (tx : ReadFile (List TxEntry))
    (balances : ReadFile (List BalanceRecord)) :
    PyResult × ReadFile (List BalanceRecord) :=
  (.attrError, balances)

/-- Concrete state used by the closed instances below: a fully valid
transfer request as constructed against `transfers.json`. -/
def stPay : TRState :=
  ⟨"transfers.json", "ES9121000418450200051332", "ES6000491500051234567892",
   "ORDINARY", "Payment for services", "07/01/2026", mkRat 4305 10, 1700000000⟩

/-- `stPay` resubmitted one second later. -/
def stPayLater : TRState := { stPay with time_stamp := 1700000001 }

/-- `stPay` against a different store path. -/
def stPayOther : TRState := { stPay with transfer_store_file := "other.json" }

/-! # Theorems -/

/-! ## Arithmetic of digit strings -/

theorem natOfDigits_foldl (l : List Char) (a : Nat) :
    l.foldl (fun x c => 10 * x + digitVal c) a
      = a * 10 ^ l.length + natOfDigits l := by
  induction l generalizing a with
  | nil => simp [natOfDigits]
  | cons c t ih =>
      simp only [List.foldl_cons, natOfDigits, List.length_cons]
      rw [ih (10 * a + digitVal c), ih (10 * 0 + digitVal c)]
      ring

theorem natOfDigits_append (l1 l2 : List Char) :
    natOfDigits (l1 ++ l2) = natOfDigits l1 * 10 ^ l2.length + natOfDigits l2 := by
  simp only [natOfDigits, List.foldl_append]
  exact natOfDigits_foldl l2 _

/-! ## The letter substitution -/

theorem replaceChar_append (l1 l2 : List Char) (c : Char) (r : List Char) :
    replaceChar (l1 ++ l2) c r = replaceChar l1 c r ++ replaceChar l2 c r := by
  simp [replaceChar]

theorem replaceChar_of_forall_ne (l : List Char) (c : Char) (r : List Char)
    (h : ∀ x ∈ l, x ≠ c) : replaceChar l c r = l := by
  induction l with
  | nil => rfl
  | cons a t ih =>
      have ha : ¬ (a = c) := h a (by simp)
      have ht := ih (fun x hx => h x (by simp [hx]))
      simp only [replaceChar, List.map_cons, List.flatten_cons, if_neg ha] at ht ⊢
      rw [ht]
      rfl

theorem letterFold_append_digits (tab : List (Char × List Char))
    (l : List Char) (t : List Char) (hl : l.all isDigitCh = true)
    (htab : ∀ p ∈ tab, isDigitCh p.1 = false) :
    tab.foldl (fun acc p => replaceChar acc p.1 p.2) (l ++ t)
      = l ++ tab.foldl (fun acc p => replaceChar acc p.1 p.2) t := by
  induction tab generalizing t with
  | nil => rfl
  | cons p ps ih =>
      simp only [List.foldl_cons]
      rw [replaceChar_append, replaceChar_of_forall_ne l p.1 p.2 ?_]
      · exact ih (replaceChar t p.1 p.2) (fun q hq => htab q (by simp [hq]))
      · intro x hx hxc
        have hd := List.all_eq_true.mp hl x hx
        have hp := htab p (by simp)
        rw [hxc] at hd
        rw [hd] at hp
        cases hp

theorem ibanLetterSubst_digits (l : List Char) (hl : l.all isDigitCh = true) :
    ibanLetterSubst (l ++ ['E', 'S', '0', '0'])
      = l ++ ['1', '4', '2', '8', '0', '0'] := by
  unfold ibanLetterSubst
  rw [letterFold_append_digits letterTable l _ hl (by decide)]
  rfl

/-! ## IBAN validation -/

theorem ibanFormatOk_shape (s : String) (h : ibanFormatOk s = true) :
    ∃ rest : List Char, s.data = 'E' :: 'S' :: rest ∧ rest.length = 22 ∧
      rest.all isDigitCh = true := by
  unfold ibanFormatOk at h
  cases hs : s.data with
  | nil => rw [hs] at h; cases h
  | cons c1 t1 =>
      cases t1 with
      | nil => rw [hs] at h; cases h
      | cons c2 rest =>
          rw [hs] at h
          simp only [Bool.and_eq_true, decide_eq_true_eq, beq_iff_eq] at h
          obtain ⟨⟨⟨he1, he2⟩, hlen⟩, hall⟩ := h
          subst he1
          subst he2
          exact ⟨rest, rfl, hlen, hall⟩

theorem validate_iban_of_format (s : String) (h : ibanFormatOk s = true) :
    validate_iban s =
      if specCheckCode s = 98 - specIbanN s % 97 then
        .ok (String.mk (s.data.drop 4 ++ ['1', '4', '2', '8', '0', '0']))
      else .error .invalidIbanControl := by
  obtain ⟨rest, hs, hlen, hdig⟩ := ibanFormatOk_shape s h
  have hdig2 : (rest.drop 2).all isDigitCh = true :=
    List.all_eq_true.mpr fun x hx =>
      List.all_eq_true.mp hdig x (List.drop_subset 2 rest hx)
  unfold validate_iban specCheckCode specIbanN
  rw [if_pos h, hs]
  simp only [List.take_succ_cons, List.take_zero, List.drop_succ_cons,
    List.drop_zero, List.cons_append, List.nil_append]
  rw [ibanLetterSubst_digits (rest.drop 2) hdig2, natOfDigits_append]
  have h6 : natOfDigits ['1', '4', '2', '8', '0', '0'] = 142800 := by decide
  have h10 : (10 : Nat) ^ (['1', '4', '2', '8', '0', '0'] : List Char).length
      = 1000000 := by norm_num
  rw [h6, h10]

/-- C1: IBAN validation.  A string that is not `ES` + 22 digits fails with
the format error; a matching string succeeds, returning the numeric
transform string, exactly when the declared check code at offsets 2-3 equals
`98 - (N % 97)` for the transformed integer `N`, and otherwise fails with
the control-digit error; the two concrete examples of the specification. -/
theorem C1_validate_iban_spec :
    (∀ s : String, ibanFormatOk s = false →
        validate_iban s = .error .invalidIbanFormat) ∧
    (∀ s : String, ibanFormatOk s = true →
      (specCheckCode s = 98 - specIbanN s % 97 →
        validate_iban s =
          .ok (String.mk (s.data.drop 4 ++ ['1', '4', '2', '8', '0', '0']))) ∧
      (specCheckCode s ≠ 98 - specIbanN s % 97 →
        validate_iban s = .error .invalidIbanControl)) ∧
    validate_iban "ES9121000418450200051332" = .ok "21000418450200051332142800" ∧
    validate_iban "ES0021000418450200051332" = .error .invalidIbanControl := by
  refine ⟨?_, ?_, by rfl, by rfl⟩
  · intro s hf
    unfold validate_iban
    rw [hf]
    rfl
  · intro s hf
    rw [validate_iban_of_format s hf]
    constructor
    · intro hc
      rw [if_pos hc]
    · intro hc
      rw [if_neg hc]

/-- Closed instance of `C1_validate_iban_spec`, discharging its hypotheses
at concrete inputs. -/
theorem C1_validate_iban_spec_witness :
    validate_iban "IBAN" = .error .invalidIbanFormat ∧
    validate_iban "ES9121000418450200051332" =
      .ok (String.mk ("ES9121000418450200051332".data.drop 4 ++
        ['1', '4', '2', '8', '0', '0'])) :=
  ⟨C1_validate_iban_spec.1 "IBAN" (by decide),
   (C1_validate_iban_spec.2.1 "ES9121000418450200051332" (by decide)).1
     (by decide)⟩

/-! ## Transfer code -/

/-- C2 (amended): `transfer_code` is the MD5 of `str(self)`, which
serializes every instance attribute; it is therefore a deterministic
function of the construction-time state *including* `time_stamp` and
`transfer_store_file`: two constructions agreeing on all of these yield the
same code. -/
theorem C2_transfer_code_deterministic (s1 s2 : TRState)
    (h1 : s1.from_iban = s2.from_iban) (h2 : s1.to_iban = s2.to_iban)
    (h3 : s1.transfer_type = s2.transfer_type) (h4 : s1.concept = s2.concept)
    (h5 : s1.transfer_date = s2.transfer_date)
    (h6 : s1.transfer_amount = s2.transfer_amount)
    (h7 : s1.time_stamp = s2.time_stamp)
    (h8 : s1.transfer_store_file = s2.transfer_store_file) :
    transfer_code s1 = transfer_code s2 := by
  cases s1
  cases s2
  dsimp at h1 h2 h3 h4 h5 h6 h7 h8
  subst h1
  subst h2
  subst h3
  subst h4
  subst h5
  subst h6
  subst h7
  subst h8
  rfl

/-- Closed instance of `C2_transfer_code_deterministic`. -/
theorem C2_transfer_code_deterministic_witness :
    transfer_code stPay = transfer_code stPay :=
  C2_transfer_code_deterministic stPay stPay rfl rfl rfl rfl rfl rfl rfl rfl

/-- C2 counterexample: the claim that `transfer_code` depends on the six
content fields only is false — `str(self)` serializes `__dict__`, which also
contains `time_stamp` and `transfer_store_file`, so two constructions with
identical content fields but different construction times (or store paths)
produce different codes. -/
theorem C2_counterexample :
    stPayLater.from_iban = stPay.from_iban ∧
    stPayLater.to_iban = stPay.to_iban ∧
    stPayLater.transfer_type = stPay.transfer_type ∧
    stPayLater.concept = stPay.concept ∧
    stPayLater.transfer_date = stPay.transfer_date ∧
    stPayLater.transfer_amount = stPay.transfer_amount ∧
    stPayOther.from_iban = stPay.from_iban ∧
    stPayOther.to_iban = stPay.to_iban ∧
    stPayOther.transfer_type = stPay.transfer_type ∧
    stPayOther.concept = stPay.concept ∧
    stPayOther.transfer_date = stPay.transfer_date ∧
    stPayOther.transfer_amount = stPay.transfer_amount ∧
    transfer_code stPayLater ≠ transfer_code stPay ∧
    transfer_code stPayOther ≠ transfer_code stPay := by
  refine ⟨rfl, rfl, rfl, rfl, rfl, rfl, rfl, rfl, rfl, rfl, rfl, rfl, ?_, ?_⟩
  · have hA : transfer_code stPayLater = "f174ef1986ce0955b870cfa8f1c6b192" := by
      rfl
    have hB : transfer_code stPay = "d59d7542d50c4da61cefea722e06582d" := by
      rfl
    rw [hA, hB]
    decide
  · have hC : transfer_code stPayOther = "9339f7b9732d127a173b9c817eb48973" := by
      rfl
    have hB : transfer_code stPay = "d59d7542d50c4da61cefea722e06582d" := by
      rfl
    rw [hC, hB]
    decide

/-! ## Transfer type -/

/-- C8 counterexample: the type check is `re.fullmatch`, not an unanchored
search — a string that merely contains `ORDINARY` as a substring is
rejected, and the spelling `IMMEDIATE` (accepted by the G8X variant) is
rejected by the `src/src` validator. -/
theorem C8_counterexample :
    "XORDINARY" = "X" ++ "ORDINARY" ++ "" ∧
    validate_transfer_type "XORDINARY" = .error .invalidTransferType ∧
    validate_transfer_type "IMMEDIATE" = .error .invalidTransferType ∧
    g8xTransferTypeOk "INMEDIATE" = false := by
  exact ⟨rfl, by decide, by decide, by decide⟩

/-- C8 (amended): a transfer type is accepted exactly when the whole string
equals one of the enumerated literals — `ORDINARY`, `INMEDIATE`, `URGENT`
for the `src/src` validator, `ORDINARY`, `IMMEDIATE`, `URGENT` for the G8X
variant; substring matches are not tolerated and neither validator accepts
the other spelling of IMMEDIATE/INMEDIATE. -/
theorem C8_type_fullmatch :
    (∀ t : String, validate_transfer_type t = .ok () ↔
      (t = "ORDINARY" ∨ t = "INMEDIATE" ∨ t = "URGENT")) ∧
    (∀ t : String, g8xTransferTypeOk t = true ↔
      (t = "ORDINARY" ∨ t = "IMMEDIATE" ∨ t = "URGENT")) := by
  constructor
  · intro t
    unfold validate_transfer_type
    split
    · rename_i h
      simp [h]
    · rename_i h
      simp [h]
  · intro t
    simp [g8xTransferTypeOk, or_assoc]

/-! ## The missing validate_iban of src/src -/

/-- C10: the `src/src` `AccountManager` defines no `validate_iban` method,
yet `deposit_into_account` and `calculate_balance` call it; every deposit
input that is readable, well-formed and has both keys reaches that call and
raises `AttributeError` (not `AccountManagementException`), and
`calculate_balance` does so for every argument; in both cases the stores are
left untouched. -/
theorem C10_missing_validate_iban :
    (∀ (i : DepositInput) (ib am : String)
        (deps : ReadFile (List DepositRecord)),
      i.ibanKey = some ib → i.amountKey = some am →
      src_deposit_into_account (.good i) deps = (.attrError, deps)) ∧
    (∀ (iban : String) (tx : ReadFile (List TxEntry))
        (balances : ReadFile (List BalanceRecord)),
      src_calculate_balance iban tx balances = (.attrError, balances)) := by
  constructor
  · intro i ib am deps h1 h2
    obtain ⟨ik, ak⟩ := i
    dsimp at h1 h2
    subst h1
    subst h2
    rfl
  · intro iban tx balances
    rfl

/-- Closed instance of `C10_missing_validate_iban`. -/
theorem C10_missing_validate_iban_witness :
    src_deposit_into_account
        (.good ⟨some "ES9121000418450200051332", some "EUR 1234.56"⟩)
        (.good []) = (.attrError, .good []) ∧
    src_calculate_balance "ES9121000418450200051332" (.good []) (.good []) =
      (.attrError, .good []) :=
  ⟨C10_missing_validate_iban.1 _ "ES9121000418450200051332" "EUR 1234.56"
      (.good []) rfl rfl,
   C10_missing_validate_iban.2 "ES9121000418450200051332" (.good []) (.good [])⟩

/-! ## Duplicate rejection -/

theorem is_duplicate_iff (st : TRState) (t : TransferRecord) :
    is_duplicate_transfer st t = true ↔ sameTuple t (to_json st) := by
  simp [is_duplicate_transfer, sameTuple, to_json]
  tauto

theorem store_good_ok (st : TRState) (l l' : List TransferRecord)
    (h : store_transfer_request st (.good l) = .ok l') :
    l.any (is_duplicate_transfer st) = false ∧ l' = l ++ [to_json st] := by
  replace h : (if l.any (is_duplicate_transfer st) = true then
      (Except.error AmErr.duplicatedTransfer : Except AmErr (List TransferRecord))
      else Except.ok (l ++ [to_json st])) = Except.ok l' := h
  by_cases hd : l.any (is_duplicate_transfer st) = true
  · rw [if_pos hd] at h
    cases h
  · rw [if_neg hd] at h
    refine ⟨by simpa using hd, ?_⟩
    injection h with h'
    exact h'.symm

/-- C4: every transfers-store state reachable through the API satisfies the
no-duplicate invariant on the six content fields, and a second submission of
the same field tuple into a store that just accepted it fails with the
duplicate error. -/
theorem C4_duplicate_rejection :
    (∀ l, ReachableStore l → noDups l) ∧
    (∀ (st st2 : TRState) (l l' : List TransferRecord),
      store_transfer_request st (.good l) = .ok l' →
      st2.from_iban = st.from_iban → st2.to_iban = st.to_iban →
      st2.transfer_date = st.transfer_date →
      st2.transfer_amount = st.transfer_amount →
      st2.concept = st.concept → st2.transfer_type = st.transfer_type →
      store_transfer_request st2 (.good l') = .error .duplicatedTransfer) := by
  constructor
  · intro l hr
    induction hr with
    | nil => exact List.Pairwise.nil
    | step st l0 l0' hr0 hok ih =>
        obtain ⟨hany, rfl⟩ := store_good_ok st l0 l0' hok
        refine List.pairwise_append.mpr ⟨ih, List.pairwise_singleton _ _, ?_⟩
        intro a ha b hb
        simp only [List.mem_singleton] at hb
        subst hb
        intro hsame
        have hfa := List.any_eq_false.mp hany a ha
        rw [is_duplicate_iff] at hfa
        exact hfa hsame
  · intro st st2 l l' hok h1 h2 h3 h4 h5 h6
    obtain ⟨hany, rfl⟩ := store_good_ok st l l' hok
    have hdup : is_duplicate_transfer st2 (to_json st) = true := by
      simp [is_duplicate_transfer, to_json, h1, h2, h3, h4, h5, h6]
    have hanyT : (l ++ [to_json st]).any (is_duplicate_transfer st2) = true := by
      simp [List.any_append, hdup]
    show (if (l ++ [to_json st]).any (is_duplicate_transfer st2) = true then
        (Except.error AmErr.duplicatedTransfer :
          Except AmErr (List TransferRecord))
        else Except.ok ((l ++ [to_json st]) ++ [to_json st2])) =
      Except.error AmErr.duplicatedTransfer
    rw [if_pos hanyT]

/-- Closed instance of `C4_duplicate_rejection`: storing `stPay` into the
empty store, then resubmitting the same content fields (`stPayLater`). -/
theorem C4_duplicate_rejection_witness :
    noDups [to_json stPay] ∧
    store_transfer_request stPayLater (.good [to_json stPay]) =
      .error .duplicatedTransfer :=
  ⟨C4_duplicate_rejection.1 [to_json stPay]
      (ReachableStore.step stPay [] [to_json stPay] ReachableStore.nil rfl),
   C4_duplicate_rejection.2 stPay stPayLater [] [to_json stPay] rfl
     rfl rfl rfl rfl rfl rfl⟩

/-! ## Validation order and failure atomicity -/

/-- C5: `TransferRequest.__init__` runs the validators in the fixed order
IBAN(from), IBAN(to), concept, type, date, amount; the first failing
validator determines the raised error, and on every failure path (including
duplicate detection and a corrupt store) the transfers store is returned
exactly as it was. -/
theorem C5_validation_order :
    ∀ (fi ty ti co da : String) (am : ℚ) (sf : String) (today : PyDate)
      (ts : ℚ) (file : ReadFile (List TransferRecord)),
      (∀ e, validate_iban fi = .error e →
        TransferRequest.construct fi ty ti co da am sf today ts file =
          (.error e, file)) ∧
      (∀ e, (∃ v, validate_iban fi = .ok v) → validate_iban ti = .error e →
        TransferRequest.construct fi ty ti co da am sf today ts file =
          (.error e, file)) ∧
      (∀ e, (∃ v, validate_iban fi = .ok v) → (∃ v, validate_iban ti = .ok v) →
        validate_concept co = .error e →
        TransferRequest.construct fi ty ti co da am sf today ts file =
          (.error e, file)) ∧
      (∀ e, (∃ v, validate_iban fi = .ok v) → (∃ v, validate_iban ti = .ok v) →
        validate_concept co = .ok () → validate_transfer_type ty = .error e →
        TransferRequest.construct fi ty ti co da am sf today ts file =
          (.error e, file)) ∧
      (∀ e, (∃ v, validate_iban fi = .ok v) → (∃ v, validate_iban ti = .ok v) →
        validate_concept co = .ok () → validate_transfer_type ty = .ok () →
        validate_transfer_date today da = .error e →
        TransferRequest.construct fi ty ti co da am sf today ts file =
          (.error e, file)) ∧
      (∀ e, (∃ v, validate_iban fi = .ok v) → (∃ v, validate_iban ti = .ok v) →
        validate_concept co = .ok () → validate_transfer_type ty = .ok () →
        (∃ v, validate_transfer_date today da = .ok v) →
        validate_amount am = .error e →
        TransferRequest.construct fi ty ti co da am sf today ts file =
          (.error e, file)) ∧
      (∀ e s2, TransferRequest.construct fi ty ti co da am sf today ts file =
          (.error e, s2) → s2 = file) := by
  intro fi ty ti co da am sf today ts file
  refine ⟨?_, ?_, ?_, ?_, ?_, ?_, ?_⟩
  · intro e h
    simp only [TransferRequest.construct, h]
  · intro e ⟨v1, h1⟩ h
    simp only [TransferRequest.construct, h1, h]
  · intro e ⟨v1, h1⟩ ⟨v2, h2⟩ h
    simp only [TransferRequest.construct, h1, h2, h]
  · intro e ⟨v1, h1⟩ ⟨v2, h2⟩ h3 h
    simp only [TransferRequest.construct, h1, h2, h3, h]
  · intro e ⟨v1, h1⟩ ⟨v2, h2⟩ h3 h4 h
    simp only [TransferRequest.construct, h1, h2, h3, h4, h]
  · intro e ⟨v1, h1⟩ ⟨v2, h2⟩ h3 h4 ⟨v5, h5⟩ h
    simp only [TransferRequest.construct, h1, h2, h3, h4, h5, h]
  · intro e s2
    unfold TransferRequest.construct
    dsimp only
    cases hx1 : validate_iban fi with
    | error e1 =>
        intro h
        exact (congrArg Prod.snd h).symm
    | ok v1 =>
    dsimp only
    cases hx2 : validate_iban ti with
    | error e2 =>
        intro h
        exact (congrArg Prod.snd h).symm
    | ok v2 =>
    dsimp only
    cases hx3 : validate_concept co with
    | error e3 =>
        intro h
        exact (congrArg Prod.snd h).symm
    | ok v3 =>
    dsimp only
    cases hx4 : validate_transfer_type ty with
    | error e4 =>
        intro h
        exact (congrArg Prod.snd h).symm
    | ok v4 =>
    dsimp only
    cases hx5 : validate_transfer_date today da with
    | error e5 =>
        intro h
        exact (congrArg Prod.snd h).symm
    | ok v5 =>
    dsimp only
    cases hx6 : validate_amount am with
    | error e6 =>
        intro h
        exact (congrArg Prod.snd h).symm
    | ok v6 =>
    dsimp only
    cases hx7 : store_transfer_request
        ⟨sf, fi, ti, ty, co, da, am, ts⟩ file with
    | error e7 =>
        intro h
        exact (congrArg Prod.snd h).symm
    | ok t_l =>
        intro h
        have := congrArg Prod.fst h
        simp at this

/-- Closed instance of `C5_validation_order`: a valid sender IBAN and an
invalid receiver IBAN abort construction with the format error of the second
validator and leave the store untouched. -/
theorem C5_validation_order_witness :
    TransferRequest.construct "ES9121000418450200051332" "ORDINARY" "IBAN"
        "Payment for services" "07/01/2026" 20 "transfers.json"
        ⟨2026, 10, 12⟩ 1700000000 (.good []) =
      (.error .invalidIbanFormat, .good []) :=
  (C5_validation_order "ES9121000418450200051332" "ORDINARY" "IBAN"
      "Payment for services" "07/01/2026" 20 "transfers.json"
      ⟨2026, 10, 12⟩ 1700000000 (.good [])).2.1 .invalidIbanFormat
    ⟨"21000418450200051332142800", by rfl⟩ (by rfl)

/-! ## Amount validation -/

/-- C6: an amount is accepted exactly when it is an exact decimal with at
most two fractional digits (its value times 100 is an integer) lying in
[10.00, 10000.00]; the five boundary points of the specification, and a
non-numeric string fails through the `float(...)` `ValueError` branch. -/
theorem C6_validate_amount_spec :
    (∀ q : ℚ, validate_amount q = .ok () ↔
      ((∃ n : ℤ, (n : ℚ) = q * 100) ∧ 10 ≤ q ∧ q ≤ 10000)) ∧
    validate_amount (mkRat 999 100) = .error .invalidTransferAmount ∧
    validate_amount 10 = .ok () ∧
    validate_amount 10000 = .ok () ∧
    validate_amount (mkRat 1000001 100) = .error .invalidTransferAmount ∧
    validate_amount (mkRat 10005 1000) = .error .invalidTransferAmount ∧
    validate_amount_str "abc" = .error .invalidTransferAmount := by
  refine ⟨?_, by decide, by decide, by decide, by decide, by decide, by decide⟩
  intro q
  unfold validate_amount
  split_ifs with h1 h2
  · refine iff_of_false (by simp) ?_
    rintro ⟨⟨n, hn⟩, -, -⟩
    exact h1 (by rw [← hn]; exact Rat.den_intCast n)
  · refine iff_of_false (by simp) ?_
    rintro ⟨-, hge, hle⟩
    rcases h2 with h | h
    · linarith
    · linarith
  · rw [not_not] at h1
    rw [not_or] at h2
    exact iff_of_true rfl
      ⟨⟨(q * 100).num, (Rat.den_eq_one_iff (q * 100)).mp h1⟩,
       not_lt.mp h2.1, not_lt.mp h2.2⟩

/-! ## Date validation -/

theorem daysInMonth_le_31 (y m : Nat) : daysInMonth y m ≤ 31 := by
  unfold daysInMonth
  split_ifs <;> omega

theorem validate_date_ok_iff (today : PyDate) (s : String) :
    validate_transfer_date today s = .ok s ↔
      (dateRegexOk s = true ∧ ∃ dt, strptimeDMY s = some dt ∧
        pyDateLt dt today = false ∧ 2025 ≤ dt.year ∧ dt.year ≤ 2050) := by
  unfold validate_transfer_date
  by_cases hreg : dateRegexOk s = true
  · rw [if_pos hreg]
    cases hdt : strptimeDMY s with
    | none => simp [hdt]
    | some dt =>
        dsimp only
        by_cases hlt : pyDateLt dt today = true
        · rw [if_pos hlt]
          refine iff_of_false (by simp) ?_
          rintro ⟨-, dt2, hdt2, hlt2, -, -⟩
          injection hdt2 with hdt2
          subst hdt2
          rw [hlt] at hlt2
          cases hlt2
        · rw [if_neg hlt]
          by_cases hyr : dt.year < 2025 ∨ dt.year > 2050
          · rw [if_pos hyr]
            refine iff_of_false (by simp) ?_
            rintro ⟨-, dt2, hdt2, -, hy1, hy2⟩
            injection hdt2 with hdt2
            subst hdt2
            omega
          · rw [if_neg hyr]
            rw [not_or] at hyr
            exact iff_of_true rfl ⟨hreg, dt, rfl,
              by simpa using hlt, by omega, by omega⟩
  · rw [if_neg hreg]
    exact iff_of_false (by simp) (fun h => hreg h.1)


theorem iteIteSomeIff {α : Type} {C D : Prop} [Decidable C] [Decidable D]
    {X dt : α} :
    ((if C then (if D then some X else none) else none) = some dt) ↔
      (C ∧ D ∧ X = dt) := by
  split_ifs with hC hD <;> simp_all

theorem specDateOk_iff (today : PyDate) (s : String) :
    specDateOk today s = true ↔
      (dateRegexOk s = true ∧ ∃ dt, strptimeDMY s = some dt ∧
        pyDateLt dt today = false ∧ 2025 ≤ dt.year ∧ dt.year ≤ 2050) := by
  unfold specDateOk dateRegexOk strptimeDMY
  rcases hs : s.data with _ | ⟨a, _ | ⟨b, _ | ⟨p, _ | ⟨c, _ | ⟨d, _ |
    ⟨q, _ | ⟨e, _ | ⟨f, _ | ⟨g, _ | ⟨h, _ | ⟨x, t⟩⟩⟩⟩⟩⟩⟩⟩⟩⟩⟩ <;>
    first
      | (refine iff_of_false (by simp) ?_
         rintro ⟨hfalse, -⟩
         cases hfalse)
      | skip
  dsimp only
  by_cases hp : p = '/'
  swap
  · refine iff_of_false (by simp [hp]) ?_
    rintro ⟨hr, -⟩
    simp [hp] at hr
  subst hp
  by_cases hq : q = '/'
  swap
  · refine iff_of_false (by simp [hq]) ?_
    rintro ⟨hr, -⟩
    simp [hq] at hr
  subst hq
  simp only [iteIteSomeIff, Bool.and_eq_true, Bool.or_eq_true,
    decide_eq_true_eq, Bool.not_eq_true', List.all_cons, List.all_nil,
    Bool.and_true, isDigitCh, digitVal, natOfDigits, List.foldl,
    eq_self_iff_true, true_and, and_true, and_assoc]
  constructor
  · rintro ⟨ha1, ha2, hb1, hb2, hc1, hc2, hd1, hd2, he1, he2, hf1, hf2,
      hg1, hg2, hh1, hh2, hm1, hm2, hD1, hDm, hlt, hy1, hy2⟩
    have h31 := daysInMonth_le_31
      (10 * (10 * (10 * (10 * 0 + (e.toNat - 48)) + (f.toNat - 48)) +
        (g.toNat - 48)) + (h.toNat - 48))
      (10 * (c.toNat - 48) + (d.toNat - 48))
    refine ⟨by omega, by omega, he1, he2, hf1, hf2, hg1, hg2, hh1, hh2,
      _, ha1, ha2, hb1, hb2, hc1, hc2, hd1, hd2, he1, he2, hf1, hf2,
      hg1, hg2, hh1, hh2, hm1, hm2, hD1, hDm, by omega, rfl, hlt, hy1, hy2⟩
  · rintro ⟨hdayR, hmonR, he1, he2, hf1, hf2, hg1, hg2, hh1, hh2, dt,
      ha1, ha2, hb1, hb2, hc1, hc2, hd1, hd2, -, -, -, -, -, -, -, -,
      hm1, hm2, hD1, hDm, hy0, hXdt, hlt, hy1, hy2⟩
    subst hXdt
    exact ⟨ha1, ha2, hb1, hb2, hc1, hc2, hd1, hd2, he1, he2, hf1, hf2,
      hg1, hg2, hh1, hh2, hm1, hm2, hD1, hDm, hlt, hy1, hy2⟩

/-- C7: date validation succeeds exactly when the string has the
`DD/MM/YYYY` shape, denotes a calendar date on or after the current UTC
date, and has year in [2025, 2050]; at the concrete current date
2026-10-12: today is accepted, yesterday rejected, a year-2051 date
rejected, a year-2024 date rejected. -/
theorem C7_validate_date_spec :
    (∀ (today : PyDate) (s : String),
      validate_transfer_date today s = .ok s ↔ specDateOk today s = true) ∧
    validate_transfer_date ⟨2026, 10, 12⟩ "12/10/2026" = .ok "12/10/2026" ∧
    validate_transfer_date ⟨2026, 10, 12⟩ "11/10/2026" =
      .error .dateMustBeTodayOrLater ∧
    validate_transfer_date ⟨2026, 10, 12⟩ "01/01/2051" =
      .error .invalidDateFormat ∧
    validate_transfer_date ⟨2026, 10, 12⟩ "31/12/2024" =
      .error .dateMustBeTodayOrLater := by
  refine ⟨?_, by decide, by decide, by decide, by decide⟩
  intro today s
  rw [validate_date_ok_iff, specDateOk_iff]

/-! ## Balance calculation -/

/-- C3: the claim's balance example fails on the code.  `calculate_balance`
rebinds `iban` to the return value of `validate_iban` — the mod-97 numeric
transform — before scanning the transaction log, so entries keyed by the
actual IBAN string never match and the call raises `IbanNotFound`; the
claimed `BALANCE = 70.0` snapshot is produced only if the log entries are
keyed by the transform string itself. -/
theorem C3_balance_transform_bug :
    g8x_calculate_balance "ES9121000418450200051332"
        (.good [⟨"ES9121000418450200051332", 100⟩,
                ⟨"ES9121000418450200051332", -30⟩]) (.good []) 1700000000 =
      (.error .ibanNotFound, .good []) ∧
    g8x_calculate_balance "ES9121000418450200051332"
        (.good [⟨"21000418450200051332142800", 100⟩,
                ⟨"21000418450200051332142800", -30⟩]) (.good []) 1700000000 =
      (.ok true, .good [⟨"21000418450200051332142800", 1700000000, 70⟩]) := by
  exact ⟨by decide, by decide⟩

/-! ## Deposits -/

/-- C9: the deposit-amount validation of the claim is dead code in both
variants.  In `src/src` the call to the undefined `self.validate_iban`
raises `AttributeError` before the (correctly written) format check, so the
specification example never reaches "must be greater than 0"; in the G8X
variant the format check binds a tuple instead of running the regex, so the
malformed amount `EUR 12.345` is accepted rather than rejected with the
invalid-deposit-amount error (the zero check itself does fire there). -/
theorem C9_deposit_format_check_bug :
    src_deposit_into_account
        (.good ⟨some "ES9121000418450200051332", some "EUR 0000.00"⟩)
        (.good []) = (.attrError, .good []) ∧
    depositAmountFormatOk "EUR 0000.00" = true ∧
    g8x_deposit_into_account
        (.good ⟨some "ES9121000418450200051332", some "EUR 0000.00"⟩)
        (.good []) = (.amErr .depositMustBePositive, .good []) ∧
    depositAmountFormatOk "EUR 12.345" = false ∧
    g8x_deposit_into_account
        (.good ⟨some "ES9121000418450200051332", some "EUR 12.345"⟩)
        (.good []) =
      (.ok (depositSig "21000418450200051332142800" (mkRat 12345 1000)),
       .good [⟨"21000418450200051332142800", mkRat 12345 1000,
               depositSig "21000418450200051332142800" (mkRat 12345 1000)⟩]) := by
  exact ⟨by rfl, by rfl, by rfl, by rfl, by rfl⟩
